import Mathlib

/-!
Shallow embedding of the debate/validation control core of the
Pharma multi-agent debate system, together with theorems settling the
frozen claims about it.

The embedded code comes from the Python classes `VisibleDebateManager`,
`HumanValidationManager`, `VotingSystem` (debate_manager.py,
human_validation.py, voting_system.py, given in
ARCHITECTURE_FINALE_DEBAT_VISIBLE.md) and `PharmaMultiAgentLogger`,
`KillSwitchManager` (the logging architecture document).  Scores and
metric values are modelled as rationals, fallible external calls as
function parameters.
-/

namespace PharmaDebate

/-- Participant roles, from `DebateRole` in debate_manager.py. -/
inductive DebateRole where
  | expert
  | judge
  | human
deriving DecidableEq, Repr

/-- Debate phases, from `DebatePhase` in debate_manager.py. -/
inductive DebatePhase where
  | initialization
  | opening_statements
  | argumentation
  | voting
  | human_validation
  | synthesis
  | final_validation
deriving DecidableEq, Repr

/-- A debate message (`DebateMessage` in debate_manager.py), restricted to the
fields the control core reads. -/
structure DebateMessage where
  id : String
  agent_id : String
  role : DebateRole
  content : String
deriving DecidableEq, Repr

/-- `VisibleDebateManager.should_proceed_to_voting`.  The values of the
`self.detect_consensus()` and `self.detect_divergence()` calls are passed as
arguments (`detect_divergence` has no definition anywhere in the repository);
`current_round` is the manager's current round field. -/
def should_proceed_to_voting (current_round : Nat) (consensus divergence : ℚ) : Bool :=
  if current_round ≥ 3 then true
  else if consensus > 8/10 then true
  else if divergence > 9/10 then true
  else false

/-- The round/phase fragment of the `VisibleDebateManager` state mutated by
`conduct_round`. -/
structure ControllerState where
  current_round : Nat
  max_rounds : Nat
  current_phase : DebatePhase
deriving DecidableEq, Repr

/-- Classification of the value returned by one `conduct_round` call. -/
inductive RoundOutcome where
  | forced_conclusion
  | round_result
  | voting_complete
deriving DecidableEq, Repr

/-- `VisibleDebateManager.conduct_round`, projected onto the round/phase state.
The body first executes `self.current_round += 1`, then compares the already
incremented counter against `self.max_rounds` and returns
`force_conclusion("Max rounds reached")` when it exceeds it; `force_conclusion`
is called but defined nowhere in the repository, and nothing resets
`current_round`.  Expert responses come from external model providers and do
not affect the round/phase fields; `consensus` and `divergence` stand for the
estimator values consumed by `should_proceed_to_voting`. -/
def conduct_round (consensus divergence : ℚ) (s : ControllerState) :
    ControllerState × RoundOutcome :=
  if s.current_round + 1 > s.max_rounds then
    ({ s with current_round := s.current_round + 1 }, RoundOutcome.forced_conclusion)
  else if s.current_phase = DebatePhase.opening_statements then
    ({ s with current_round := s.current_round + 1,
              current_phase := DebatePhase.argumentation }, RoundOutcome.round_result)
  else if s.current_phase = DebatePhase.argumentation then
    if should_proceed_to_voting (s.current_round + 1) consensus divergence then
      ({ s with current_round := s.current_round + 1,
                current_phase := DebatePhase.voting }, RoundOutcome.round_result)
    else
      ({ s with current_round := s.current_round + 1 }, RoundOutcome.round_result)
  else if s.current_phase = DebatePhase.voting then
    ({ s with current_round := s.current_round + 1,
              current_phase := DebatePhase.human_validation }, RoundOutcome.voting_complete)
  else
    ({ s with current_round := s.current_round + 1 }, RoundOutcome.round_result)

/-- Python `l[-n:]`: the last `n` elements of a list. -/
def lastN {α : Type} (n : Nat) (l : List α) : List α :=
  l.drop (l.length - n)

/-- Splitting a character list at whitespace, keeping empty fragments (they are
removed downstream by the length filter). -/
def splitWsAux : List Char → List Char → List (List Char)
  | [], acc => [acc.reverse]
  | c :: cs, acc =>
      if c.isWhitespace then acc.reverse :: splitWsAux cs []
      else splitWsAux cs (c :: acc)

/-- The content-word set of a message, from `detect_consensus`:
`{w for w in msg.content.lower().split() if len(w) > 4}` — lower-casing
character by character, splitting at whitespace, keeping words longer than 4
characters. -/
def keywords (content : String) : Finset String :=
  (((splitWsAux (content.data.map Char.toLower) []).map String.mk).filter
      fun w => w.length > 4).toFinset

/-- The list `keywords_sets` built by `detect_consensus`: content-word sets of
the expert messages among the last three messages. -/
def keywords_sets (messages : List DebateMessage) : List (Finset String) :=
  ((lastN 3 messages).filter fun m => decide (m.role = DebateRole.expert)).map
    fun m => keywords m.content

/-- The running intersection computed by `detect_consensus`:
`common = keywords_sets[0]` then intersected with each later set. -/
def interAll : List (Finset String) → Finset String
  | [] => ∅
  | s :: rest => rest.foldl (fun acc t => acc ∩ t) s

/-- `VisibleDebateManager.detect_consensus`.  The divisor is
`max(avg_keywords, 1)` as in the source, and the result is clamped above by
`min(consensus, 1.0)`. -/
def detect_consensus (messages : List DebateMessage) : ℚ :=
  if messages.length < 2 then 0
  else if keywords_sets messages = [] then 0
  else
    min (((interAll (keywords_sets messages)).card : ℚ) /
          max (((keywords_sets messages).map fun s => ((s.card : ℚ))).sum /
                ((keywords_sets messages).length : ℚ)) 1) 1

/-- The consensus formula in the words of the specification, for comparison
with `detect_consensus`: size of the intersection of the content-word sets
divided by the average set size, clamped to `[0,1]` (rational division, so a
division by zero yields 0). -/
def specConsensusScore (ks : List (Finset String)) : ℚ :=
  min (((interAll ks).card : ℚ) /
        ((ks.map fun s => ((s.card : ℚ))).sum / (ks.length : ℚ))) 1

/-- `ValidationDecision` in human_validation.py. -/
inductive ValidationDecision where
  | approve
  | reject
  | clarification
  | more_debate
  | override_custom
deriving DecidableEq, Repr

/-- `HumanValidationCheckpoint`, restricted to the fields the claims read. -/
structure HumanValidationCheckpoint where
  checkpoint_type : String
  decision : Option ValidationDecision
  validator_notes : String
deriving DecidableEq, Repr

/-- The mutable state of `HumanValidationManager`: the keys of the
`pending_validations` dict and the `validation_history` list. -/
structure HumanValidationManagerState where
  pending_validations : List String
  validation_history : List HumanValidationCheckpoint
deriving DecidableEq, Repr

/-- The opening part of `HumanValidationManager.request_validation` together
with the registration step of `wait_for_human_decision`: a checkpoint with the
fresh `uuid4` id `validation_id` is created and its future is stored in
`pending_validations` unconditionally.  The source inspects nothing about
already-pending checkpoints and defines no `CheckpointAlreadyOpen` error, so
the operation is total. -/
def request_validation_open (st : HumanValidationManagerState) (validation_id : String) :
    HumanValidationManagerState :=
  { st with pending_validations := st.pending_validations ++ [validation_id] }

/-- `HumanValidationManager.request_validation` from checkpoint creation to the
recorded decision.  `human_reply` is the decision delivered through
`receive_human_decision` inside the 300-second `asyncio.wait_for` window;
`none` models `asyncio.TimeoutError`, in which case the source sets
`decision = ValidationDecision.REQUEST_MORE_DEBATE` and
`checkpoint.validator_notes = "Timeout - defaulted to request more debate"`. -/
def request_validation (st : HumanValidationManagerState) (checkpoint_type : String)
    (human_reply : Option ValidationDecision) :
    ValidationDecision × HumanValidationManagerState :=
  match human_reply with
  | some d =>
      (d, { st with validation_history := st.validation_history ++
              [{ checkpoint_type := checkpoint_type, decision := some d,
                 validator_notes := "" }] })
  | none =>
      (ValidationDecision.more_debate,
       { st with validation_history := st.validation_history ++
           [{ checkpoint_type := checkpoint_type,
              decision := some ValidationDecision.more_debate,
              validator_notes := "Timeout - defaulted to request more debate" }] })

/-- The `kill_conditions` dict of `KillSwitchManager.__init__`. -/
structure KillConditions where
  max_iterations : Nat
  max_duration_ms : ℚ
  max_memory_mb : ℚ
deriving DecidableEq, Repr

/-- The default values set in `KillSwitchManager.__init__`. -/
def default_kill_conditions : KillConditions :=
  { max_iterations := 50, max_duration_ms := 30000, max_memory_mb := 500 }

/-- The per-trace state a `KillSwitchManager` poll reads, together with the
`input_hash` column of the logger's `trace_storage` for the same trace. -/
structure TraceState where
  status : String
  iteration_count : Nat
  duration_ms : ℚ
  memory_mb : ℚ
  input_hashes : List String
deriving DecidableEq, Repr

/-- The checks performed by one body iteration of
`KillSwitchManager._continuous_monitor` (executed every 500 ms): duration,
then iteration count, then memory — these are the only conditions the polling
loop inspects. -/
def monitor_check (kc : KillConditions) (t : TraceState) : Option String :=
  if t.duration_ms > kc.max_duration_ms then some "MAX_DURATION_EXCEEDED"
  else if t.iteration_count > kc.max_iterations then some "MAX_ITERATIONS_EXCEEDED"
  else if t.memory_mb > kc.max_memory_mb then some "MEMORY_LIMIT_EXCEEDED"
  else none

/-- `KillSwitchManager._get_recovery_action`. -/
def get_recovery_action (reason : String) : String :=
  if reason = "MAX_DURATION_EXCEEDED" then
    "Simplifier la requête ou la diviser en sous-tâches"
  else if reason = "MAX_ITERATIONS_EXCEEDED" then
    "Vérifier les conditions de terminaison des agents"
  else if reason = "MEMORY_LIMIT_EXCEEDED" then
    "Réduire la taille du contexte ou optimiser les RAGs"
  else if reason = "INFINITE_LOOP_DETECTED" then
    "Réviser la logique de validation inter-agents"
  else "Contacter l'équipe support"

/-- The kill event recorded by `KillSwitchManager._trigger_kill`. -/
structure KillEvent where
  reason : String
  recovery_action : String
deriving DecidableEq, Repr

/-- One 500 ms poll of `_continuous_monitor` followed by `_trigger_kill` when a
condition fires: the trace status becomes `"killed"` and a kill event with the
reason and the suggested recovery action is recorded. -/
def monitor_step (kc : KillConditions) (t : TraceState) : TraceState × Option KillEvent :=
  match monitor_check kc t with
  | some reason =>
      ({ t with status := "killed" },
       some { reason := reason, recovery_action := get_recovery_action reason })
  | none => (t, none)

/-- The loop condition of `PharmaMultiAgentLogger._detect_anomalies`: strictly
more than 10 entries in `trace_storage` and fewer than 3 distinct values among
the last 10 input hashes. -/
def loop_anomaly (input_hashes : List String) : Bool :=
  decide (input_hashes.length > 10) && decide ((lastN 10 input_hashes).dedup.length < 3)

/-- `PharmaMultiAgentLogger._detect_anomalies`: the anomaly list built from the
stored input hashes and the optional hallucination score of the entry being
logged. -/
def detect_anomalies (input_hashes : List String) (hallucination_score : Option ℚ) :
    List String :=
  (if loop_anomaly input_hashes then ["POTENTIAL_INFINITE_LOOP"] else []) ++
    (match hallucination_score with
     | some h => if h > 7/10 then ["HIGH_HALLUCINATION_RISK"] else []
     | none => [])

/-- `PharmaMultiAgentLogger._trigger_alert` activates the kill switch exactly
when `"INFINITE_LOOP"` occurs in the string rendering of the anomaly list
(Python `"INFINITE_LOOP" in str(anomalies)`), i.e. when some anomaly name
contains the character sequence `"INFINITE_LOOP"` as a substring. -/
def alert_activates_kill_switch (anomalies : List String) : Bool :=
  anomalies.any fun a => decide ("INFINITE_LOOP".toList <:+: a.toList)

/-- A score entry of the dict returned by `VotingSystem.get_voter_scores`. -/
structure ScoreEntry where
  message_id : String
  agent_id : String
  score : ℚ
deriving DecidableEq, Repr

/-- `VotingSystem.get_voter_scores`.  `evaluate` stands for the external
criterion pipeline `evaluate_message`; a message whose `agent_id` equals the
voter's id is skipped with `continue`, silently. -/
def get_voter_scores (evaluate : DebateMessage → ℚ) (voter_id : String)
    (messages : List DebateMessage) : List ScoreEntry :=
  (messages.filter fun m => decide (¬ m.agent_id = voter_id)).map
    fun m => { message_id := m.id, agent_id := m.agent_id, score := evaluate m }

/-- The `voting_matrix` built by `VotingSystem.conduct_vote`: for each voter,
the scores returned by `get_voter_scores`. -/
def conduct_vote_matrix (evaluate : DebateMessage → ℚ) (voters : List String)
    (messages : List DebateMessage) : List (String × List ScoreEntry) :=
  voters.map fun v => (v, get_voter_scores evaluate v messages)

/-- A record of the `agent_performance` dict of `VotingSystem`; each field may
be absent, in which case `perf.get(..., 0.5)` supplies `0.5`. -/
structure AgentPerformance where
  historical_accuracy : Option ℚ
  consistency_score : Option ℚ
deriving DecidableEq, Repr

/-- `VotingSystem.get_voter_weight`: `1.0` for a voter absent from
`agent_performance`, otherwise `0.5 + (accuracy + consistency) / 2` with the
two factors read via `perf.get(key, 0.5)`. -/
def get_voter_weight (perf : Option AgentPerformance) : ℚ :=
  match perf with
  | none => 1
  | some p => 1/2 + ((p.historical_accuracy.getD (1/2)) + (p.consistency_score.getD (1/2))) / 2

/-- The votes one message receives across the voting matrix, paired as
(voter weight, score), in matrix order — the data over which
`VotingSystem.calculate_weighted_scores` accumulates `total_score` and
`vote_count` for that message. -/
def votes_on (weight : String → ℚ) (matrix : List (String × List ScoreEntry))
    (message_id : String) : List (ℚ × ℚ) :=
  (matrix.map fun vw =>
    (vw.2.filter fun e => decide (e.message_id = message_id)).map
      fun e => (weight vw.1, e.score)).flatten

/-- The `average_score` computed by `VotingSystem.calculate_weighted_scores`
for one message: the sum of `score * voter_weight` over its votes divided by
the raw `vote_count`, and 0 for a message without votes. -/
def average_score (votes : List (ℚ × ℚ)) : ℚ :=
  if votes.length = 0 then 0
  else (votes.map fun v => v.2 * v.1).sum / (votes.length : ℚ)

/-- The final score in the words of the specification, for comparison with
`average_score`: the weighted mean of the voters' scores,
`Σ weight·score / Σ weight`. -/
def specWeightedMean (votes : List (ℚ × ℚ)) : ℚ :=
  (votes.map fun v => v.2 * v.1).sum / (votes.map fun v => v.1).sum

/-- A left fold of intersections is contained in its initial accumulator and in
every folded set. -/
theorem foldl_inter_subset {α : Type} [DecidableEq α] (l : List (Finset α)) (acc : Finset α) :
    (l.foldl (fun x y => x ∩ y) acc ⊆ acc) ∧
      ∀ s ∈ l, l.foldl (fun x y => x ∩ y) acc ⊆ s := by
  induction l generalizing acc with
  | nil => simp
  | cons b l ih =>
    refine ⟨(ih (acc ∩ b)).1.trans Finset.inter_subset_left, ?_⟩
    intro s hs
    rcases List.mem_cons.mp hs with rfl | hs
    · exact (ih (acc ∩ s)).1.trans Finset.inter_subset_right
    · exact (ih (acc ∩ b)).2 s hs

/-- The running intersection of `detect_consensus` is contained in every
keyword set of the list. -/
theorem interAll_subset {s : Finset String} {ks : List (Finset String)} (hs : s ∈ ks) :
    interAll ks ⊆ s := by
  cases ks with
  | nil => simp at hs
  | cons a rest =>
    rcases List.mem_cons.mp hs with rfl | hs
    · exact (foldl_inter_subset rest s).1
    · exact (foldl_inter_subset rest a).2 s hs

/-- A list of rationals that are all at least 1 sums to at least its length. -/
theorem length_le_sum_of_one_le (l : List ℚ) (h : ∀ x ∈ l, 1 ≤ x) :
    (l.length : ℚ) ≤ l.sum := by
  induction l with
  | nil => simp
  | cons a l ih =>
    have ha := h a (List.mem_cons_self a l)
    have hl := ih fun x hx => h x (List.mem_cons_of_mem a hx)
    simp only [List.length_cons, List.sum_cons]
    push_cast
    linarith

/-- C1 (counterexample): `conduct_round` increments `current_round` before the
limit check and never resets it, so a session whose round already equals
`max_rounds` ends the call with round `max_rounds + 1`, exceeding the
configured round limit. -/
theorem c1_counterexample :
    (conduct_round 0 0
      { current_round := 5, max_rounds := 5,
        current_phase := DebatePhase.argumentation }).1.current_round = 6 ∧
    ¬ (conduct_round 0 0
        { current_round := 5, max_rounds := 5,
          current_phase := DebatePhase.argumentation }).1.current_round ≤ 5 := by
  exact ⟨rfl, by decide⟩

/-- C1 (amended): after every `conduct_round` call the round number increases by
exactly one (so it is strictly monotonic), and starting from a round within the
limit it never exceeds `max_rounds + 1`; the call where it reaches
`max_rounds + 1` returns a forced conclusion instead of conducting a round. -/
theorem c1_round_monotonic_bounded (consensus divergence : ℚ) (s : ControllerState) :
    (conduct_round consensus divergence s).1.current_round = s.current_round + 1 ∧
    (s.current_round ≤ s.max_rounds →
      (conduct_round consensus divergence s).1.current_round ≤ s.max_rounds + 1) := by
  have h : (conduct_round consensus divergence s).1.current_round = s.current_round + 1 := by
    unfold conduct_round
    split_ifs <;> rfl
  exact ⟨h, fun hb => by rw [h]; omega⟩

/-- Witness for the C1 theorem at a concrete in-limit state. -/
theorem c1_round_monotonic_bounded_witness :
    (conduct_round 0 0
      { current_round := 2, max_rounds := 5,
        current_phase := DebatePhase.argumentation }).1.current_round = 2 + 1 ∧
    (conduct_round 0 0
      { current_round := 2, max_rounds := 5,
        current_phase := DebatePhase.argumentation }).1.current_round ≤ 5 + 1 := by
  have h := c1_round_monotonic_bounded 0 0
    { current_round := 2, max_rounds := 5, current_phase := DebatePhase.argumentation }
  exact ⟨h.1, h.2 (by norm_num)⟩

/-- C2 (counterexample): the source checks nothing before registering a new
checkpoint, so a second `request_validation` issued while the first checkpoint
is still pending simply registers a second pending checkpoint — both are open
at once and no `CheckpointAlreadyOpen` failure exists. -/
theorem c2_counterexample :
    (request_validation_open (request_validation_open
        { pending_validations := [], validation_history := [] } "cp-1") "cp-2").pending_validations
      = ["cp-1", "cp-2"] := rfl

/-- C2 (amended): a `request_validation` issued while earlier checkpoints are
pending does not fail: it adds one more pending checkpoint and every earlier
pending checkpoint stays pending, so several checkpoints can be open at once. -/
theorem c2_second_request_opens_second_checkpoint (st : HumanValidationManagerState)
    (vid : String) (_hpending : st.pending_validations ≠ []) :
    (request_validation_open st vid).pending_validations.length
        = st.pending_validations.length + 1 ∧
    ∀ x ∈ st.pending_validations, x ∈ (request_validation_open st vid).pending_validations := by
  constructor
  · simp [request_validation_open]
  · intro x hx
    simp only [request_validation_open, List.mem_append]
    exact Or.inl hx

/-- Witness for the C2 theorem at a state with one pending checkpoint. -/
theorem c2_second_request_opens_second_checkpoint_witness :
    (request_validation_open { pending_validations := ["cp-1"], validation_history := [] }
        "cp-2").pending_validations.length = 1 + 1 ∧
    ∀ x ∈ (["cp-1"] : List String),
      x ∈ (request_validation_open { pending_validations := ["cp-1"], validation_history := [] }
            "cp-2").pending_validations :=
  c2_second_request_opens_second_checkpoint
    { pending_validations := ["cp-1"], validation_history := [] } "cp-2" (by decide)

/-- C3 (confirmed): a validation checkpoint that receives no human decision
within the 300-second window resolves to `more_debate`, the timeout is recorded
in the checkpoint's notes, and the resolved decision is never `approve`. -/
theorem c3_timeout_defaults_to_more_debate (st : HumanValidationManagerState)
    (checkpoint_type : String) :
    (request_validation st checkpoint_type none).1 = ValidationDecision.more_debate ∧
    (request_validation st checkpoint_type none).1 ≠ ValidationDecision.approve ∧
    (request_validation st checkpoint_type none).2.validation_history =
      st.validation_history ++
        [({ checkpoint_type := checkpoint_type,
            decision := some ValidationDecision.more_debate,
            validator_notes := "Timeout - defaulted to request more debate" } :
          HumanValidationCheckpoint)] :=
  ⟨rfl, fun h => ValidationDecision.noConfusion h, rfl⟩

/-- C4 (counterexample): a trace whose last 10 input hashes hold only 2
distinct values satisfies the loop condition, yet a poll of the kill-switch
monitor leaves it active and kills nothing — the 500 ms polling loop inspects
only duration, iteration count and memory, never the content hashes. -/
theorem c4_counterexample :
    loop_anomaly ["h1", "h2", "h1", "h2", "h1", "h2", "h1", "h2", "h1", "h2", "h1", "h2"]
      = true ∧
    (monitor_step default_kill_conditions
      { status := "active", iteration_count := 0, duration_ms := 0, memory_mb := 0,
        input_hashes := ["h1", "h2", "h1", "h2", "h1", "h2", "h1", "h2", "h1", "h2",
                         "h1", "h2"] }).1.status = "active" ∧
    (monitor_step default_kill_conditions
      { status := "active", iteration_count := 0, duration_ms := 0, memory_mb := 0,
        input_hashes := ["h1", "h2", "h1", "h2", "h1", "h2", "h1", "h2", "h1", "h2",
                         "h1", "h2"] }).2 = none := by
  refine ⟨by decide, ?_, ?_⟩ <;>
    norm_num [monitor_step, monitor_check, default_kill_conditions]

/-- C4 (amended): the repetition condition — strictly more than 10 logged
entries whose last 10 input hashes hold fewer than 3 distinct values — is
detected not by the polling kill-switch monitor but by the logger's
`_detect_anomalies` on each logged interaction, which reports
`POTENTIAL_INFINITE_LOOP` and activates the kill switch. -/
theorem c4_loop_detected_by_logger (input_hashes : List String)
    (hallucination_score : Option ℚ)
    (hlen : input_hashes.length > 10)
    (hdist : (lastN 10 input_hashes).dedup.length < 3) :
    "POTENTIAL_INFINITE_LOOP" ∈ detect_anomalies input_hashes hallucination_score ∧
    alert_activates_kill_switch (detect_anomalies input_hashes hallucination_score)
      = true := by
  have hla : loop_anomaly input_hashes = true := by
    simp [loop_anomaly, hlen, hdist]
  have hdec : ("INFINITE_LOOP" : String).toList <:+: ("POTENTIAL_INFINITE_LOOP" : String).toList := by
    decide
  constructor
  · simp [detect_anomalies, hla]
  · simp [alert_activates_kill_switch, detect_anomalies, hla]
    exact Or.inl hdec

/-- Witness for the C4 theorem: 11 logged hashes with 2 distinct values. -/
theorem c4_loop_detected_by_logger_witness :
    "POTENTIAL_INFINITE_LOOP" ∈
      detect_anomalies ["h1", "h2", "h1", "h2", "h1", "h2", "h1", "h2", "h1", "h2", "h1"]
        none ∧
    alert_activates_kill_switch
      (detect_anomalies ["h1", "h2", "h1", "h2", "h1", "h2", "h1", "h2", "h1", "h2", "h1"]
        none) = true :=
  c4_loop_detected_by_logger
    ["h1", "h2", "h1", "h2", "h1", "h2", "h1", "h2", "h1", "h2", "h1"] none
    (by decide) (by decide)

/-- C5 (confirmed): under the default kill conditions, once the iteration
counter exceeds 50 — i.e. reaches 51 — a poll of the kill-switch monitor (whose
duration check has not already fired) kills the trace with reason
`MAX_ITERATIONS_EXCEEDED` and records the suggested recovery action. -/
theorem c5_max_iterations_triggers_kill (t : TraceState)
    (hiter : t.iteration_count > 50) (hdur : t.duration_ms ≤ 30000) :
    (monitor_step default_kill_conditions t).1.status = "killed" ∧
    (monitor_step default_kill_conditions t).2 =
      some { reason := "MAX_ITERATIONS_EXCEEDED",
             recovery_action := "Vérifier les conditions de terminaison des agents" } := by
  have hdur' : ¬ t.duration_ms > (30000 : ℚ) := not_lt.mpr hdur
  have hcheck : monitor_check default_kill_conditions t = some "MAX_ITERATIONS_EXCEEDED" := by
    simp [monitor_check, default_kill_conditions, hiter, hdur']
  have hrec : get_recovery_action "MAX_ITERATIONS_EXCEEDED" =
      "Vérifier les conditions de terminaison des agents" := by decide
  constructor <;> simp [monitor_step, hcheck, hrec]

/-- Witness for the C5 theorem: iteration counter 51 with all other metrics
within bounds. -/
theorem c5_max_iterations_triggers_kill_witness :
    (monitor_step default_kill_conditions
      { status := "active", iteration_count := 51, duration_ms := 0, memory_mb := 0,
        input_hashes := [] }).1.status = "killed" ∧
    (monitor_step default_kill_conditions
      { status := "active", iteration_count := 51, duration_ms := 0, memory_mb := 0,
        input_hashes := [] }).2 =
      some { reason := "MAX_ITERATIONS_EXCEEDED",
             recovery_action := "Vérifier les conditions de terminaison des agents" } :=
  c5_max_iterations_triggers_kill
    { status := "active", iteration_count := 51, duration_ms := 0, memory_mb := 0,
      input_hashes := [] }
    (by norm_num) (by norm_num)

/-- C6 (counterexample): `should_proceed_to_voting` compares the consensus
estimate with the strict bound `> 0.8`, so at round 1 with consensus exactly
0.8 the debate does not proceed to voting although the claim's condition
`consensus ≥ 0.8` holds. -/
theorem c6_counterexample :
    should_proceed_to_voting 1 (8/10) 0 = false ∧ ((8 : ℚ)/10 ≥ 8/10) ∧ ¬ (1 ≥ 3) := by
  refine ⟨?_, le_refl _, by omega⟩
  norm_num [should_proceed_to_voting]

/-- C6 (amended): the debate proceeds from ARGUMENTATION to VOTING exactly when
the round number is at least 3, or the consensus estimate is strictly greater
than 0.8, or the divergence estimate is strictly greater than 0.9 (the round
limit is enforced separately in `conduct_round` via `force_conclusion`); in
particular at round 3 with consensus 0.85 the debate proceeds to voting. -/
theorem c6_voting_transition (r : Nat) (consensus divergence : ℚ) :
    (should_proceed_to_voting r consensus divergence = true ↔
      (3 ≤ r ∨ 8/10 < consensus ∨ 9/10 < divergence)) ∧
    should_proceed_to_voting 3 (85/100) 0 = true := by
  constructor
  · unfold should_proceed_to_voting
    split_ifs with h1 h2 h3 <;> simp_all
  · norm_num [should_proceed_to_voting]

/-- C7 (counterexample): a voter with perfect recorded accuracy and consistency
has influence weight 1.5; `calculate_weighted_scores` divides the weight-scaled
total by the raw vote count, so this voter's score 1.0 on a message yields a
final score of 1.5 — not the weighted mean, which is 1.0. -/
theorem c7_counterexample :
    get_voter_weight (some { historical_accuracy := some 1, consistency_score := some 1 })
      = 3/2 ∧
    votes_on
      (fun _ => get_voter_weight
        (some { historical_accuracy := some 1, consistency_score := some 1 }))
      [("expert_2", [{ message_id := "m1", agent_id := "expert_1", score := 1 }])] "m1"
      = [(3/2, 1)] ∧
    average_score [(3/2, 1)] = 3/2 ∧
    specWeightedMean [(3/2, 1)] = 1 ∧
    ((3 : ℚ)/2 ≠ 1) := by
  refine ⟨by norm_num [get_voter_weight], ?_, by norm_num [average_score],
    by norm_num [specWeightedMean], by norm_num⟩
  norm_num [votes_on, get_voter_weight]

/-- C7 (amended): the final score of a message is the sum of
`score × voter weight` over its votes divided by the raw vote count, which
coincides with the weighted mean exactly in the unweighted case; the voter
weight defaults to 1.0 without recorded history and lies in [0.5, 1.5] whenever
the recorded accuracy and consistency lie in [0, 1]. -/
theorem c7_weighted_aggregation (a c : ℚ) (votes : List (ℚ × ℚ))
    (ha0 : 0 ≤ a) (ha1 : a ≤ 1) (hc0 : 0 ≤ c) (hc1 : c ≤ 1)
    (hne : votes ≠ []) (hw : ∀ v ∈ votes, v.1 = 1) :
    get_voter_weight none = 1 ∧
    (1/2 ≤ get_voter_weight (some { historical_accuracy := some a, consistency_score := some c }) ∧
      get_voter_weight (some { historical_accuracy := some a, consistency_score := some c })
        ≤ 3/2) ∧
    average_score votes = specWeightedMean votes := by
  refine ⟨rfl, ?_, ?_⟩
  · simp only [get_voter_weight, Option.getD_some]
    constructor <;> linarith
  · have hwsum : (votes.map fun v => v.1).sum = (votes.length : ℚ) := by
      have hconst : votes.map (fun v => v.1) = votes.map fun _ => (1 : ℚ) :=
        List.map_congr_left hw
      rw [hconst, List.map_const', List.sum_replicate]
      simp
    have hlen : ¬ votes.length = 0 := by
      simpa [List.length_eq_zero] using hne
    rw [average_score, if_neg hlen, specWeightedMean, hwsum]

/-- Witness for the C7 theorem: one unweighted vote. -/
theorem c7_weighted_aggregation_witness :
    get_voter_weight none = 1 ∧
    (1/2 ≤ get_voter_weight (some { historical_accuracy := some 1, consistency_score := some 0 }) ∧
      get_voter_weight (some { historical_accuracy := some 1, consistency_score := some 0 })
        ≤ 3/2) ∧
    average_score [(1, 3/4)] = specWeightedMean [(1, 3/4)] :=
  c7_weighted_aggregation 1 0 [(1, 3/4)] (by norm_num) (by norm_num) (by norm_num)
    (by norm_num) (by simp) (by simp)

/-- C8 (confirmed): `detect_consensus` returns 0 with fewer than two messages,
and otherwise returns exactly the specification's formula — the size of the
intersection of the content-word sets of the expert messages in the window
divided by the average set size, clamped to [0, 1]: the source's divisor
`max(avg, 1)` never changes the value, because a nonempty intersection forces
every set (hence the average) to have size at least 1. -/
theorem c8_detect_consensus_refines_spec (messages : List DebateMessage) :
    detect_consensus messages =
      if messages.length < 2 then 0
      else specConsensusScore (keywords_sets messages) := by
  by_cases h2 : messages.length < 2
  · simp [detect_consensus, h2]
  · simp only [detect_consensus, h2, if_false]
    by_cases hks : keywords_sets messages = []
    · simp [hks, specConsensusScore, interAll]
    · simp only [hks, if_false]
      rcases Nat.eq_zero_or_pos (interAll (keywords_sets messages)).card with hc | hc
      · simp [specConsensusScore, hc]
      · have hmem : ∀ s ∈ keywords_sets messages, 1 ≤ s.card := by
          intro s hs
          have hsub := Finset.card_le_card (interAll_subset hs)
          omega
        have hlen : 0 < (keywords_sets messages).length := List.length_pos.mpr hks
        have hsum : ((keywords_sets messages).length : ℚ) ≤
            ((keywords_sets messages).map fun s => ((s.card : ℚ))).sum := by
          have h := length_le_sum_of_one_le
            ((keywords_sets messages).map fun s => ((s.card : ℚ)))
            (by
              intro x hx
              rcases List.mem_map.mp hx with ⟨s, hs, rfl⟩
              exact_mod_cast hmem s hs)
          simpa using h
        have havg : (1 : ℚ) ≤ ((keywords_sets messages).map fun s => ((s.card : ℚ))).sum /
            ((keywords_sets messages).length : ℚ) := by
          rw [one_le_div (by exact_mod_cast hlen)]
          exact hsum
        rw [specConsensusScore, max_eq_left havg]

/-- C9 (confirmed): `get_voter_scores` drops a voter's own messages silently (it
is total, with no error path), so in the voting matrix built by `conduct_vote`
no voter ever appears as the author of a message it scored. -/
theorem c9_no_self_votes (evaluate : DebateMessage → ℚ) (voters : List String)
    (messages : List DebateMessage) (v : String) (entries : List ScoreEntry)
    (e : ScoreEntry) (hv : (v, entries) ∈ conduct_vote_matrix evaluate voters messages)
    (he : e ∈ entries) : e.agent_id ≠ v := by
  rcases List.mem_map.mp hv with ⟨v2, _, heq⟩
  injection heq with h1 h2
  subst h1
  subst h2
  rcases List.mem_map.mp he with ⟨m, hm, rfl⟩
  have hp := (List.mem_filter.mp hm).2
  simpa using hp

/-- Witness for the C9 theorem: one voter, its own message and another
expert's message. -/
theorem c9_no_self_votes_witness : ("expert_2" : String) ≠ "expert_1" :=
  c9_no_self_votes (fun _ => 1/2) ["expert_1"]
    [{ id := "m1", agent_id := "expert_1", role := DebateRole.expert, content := "own" },
     { id := "m2", agent_id := "expert_2", role := DebateRole.expert, content := "other" }]
    "expert_1"
    [{ message_id := "m2", agent_id := "expert_2", score := 1/2 }]
    { message_id := "m2", agent_id := "expert_2", score := 1/2 }
    (by simp [conduct_vote_matrix, get_voter_scores]) (by simp)

/-- C10 (counterexample): the claim fails for a session holding a single
message: its last-three window has exactly one expert message with a content
word longer than 4 characters, yet `detect_consensus` returns 0, not 1.0,
because of the early return for sessions with fewer than two messages. -/
theorem c10_counterexample :
    detect_consensus [{ id := "m1", agent_id := "expert_1", role := DebateRole.expert,
                        content := "alpha bravo" }] = 0 ∧
    ((lastN 3 [({ id := "m1", agent_id := "expert_1", role := DebateRole.expert,
                  content := "alpha bravo" } : DebateMessage)]).filter
        fun m => decide (m.role = DebateRole.expert)).length = 1 ∧
    keywords "alpha bravo" ≠ ∅ ∧
    ((0 : ℚ) ≠ 1) := by
  refine ⟨rfl, rfl, ?_, by norm_num⟩
  decide

/-- C10 (amended): in a session with at least two messages whose last-three
window holds exactly one expert message, and that message has at least one
content word longer than 4 characters, `detect_consensus` returns 1.0 — a lone
expert voice is reported as maximal consensus, which alone satisfies the
strictly-greater-than-0.8 condition of `should_proceed_to_voting`. -/
theorem c10_single_expert_full_consensus (messages : List DebateMessage) (S : Finset String)
    (h2 : 2 ≤ messages.length) (hks : keywords_sets messages = [S]) (hS : S.Nonempty) :
    detect_consensus messages = 1 := by
  have hlt : ¬ messages.length < 2 := by omega
  have hcard : 0 < S.card := Finset.card_pos.mpr hS
  have hcardQ : (1 : ℚ) ≤ (S.card : ℚ) := by exact_mod_cast hcard
  have hne : (S.card : ℚ) ≠ 0 := by positivity
  simp only [detect_consensus, hlt, if_false, hks]
  rw [if_neg (by simp)]
  simp only [interAll, List.foldl_nil, List.map_cons, List.map_nil, List.sum_cons,
    List.sum_nil, List.length_cons, List.length_nil]
  norm_num [max_eq_left hcardQ, div_self hne]

/-- Witness for the C10 theorem: a judge message followed by one expert
message containing two 5-letter words. -/
theorem c10_single_expert_full_consensus_witness :
    detect_consensus
      [{ id := "m0", agent_id := "judge", role := DebateRole.judge, content := "ok" },
       { id := "m1", agent_id := "expert_1", role := DebateRole.expert,
         content := "alpha bravo" }] = 1 :=
  c10_single_expert_full_consensus
    [{ id := "m0", agent_id := "judge", role := DebateRole.judge, content := "ok" },
     { id := "m1", agent_id := "expert_1", role := DebateRole.expert,
       content := "alpha bravo" }]
    (keywords "alpha bravo") (by decide) rfl (by decide)

end PharmaDebate
